import Mathlib

/-
Verification development for the Darwin Core quick-check script
(`dwc_quick_check.py`): a shallow embedding of its table model, its merge
stage (`check_merge_tables`), its field validators (`check_null_values`,
`check_latitude`, `check_longitude`, `check_depth_consistency`) and its
WoRMS scientific-name resolution (`check_scientific_names`,
`check_scientific_name`, `_check_scientific_name`), together with theorems
about those definitions.
-/

set_option linter.unusedVariables false
set_option autoImplicit false

/-- A cell of a pandas DataFrame as this program sees it after CSV parsing:
a number (a column pandas parsed as numeric), a piece of text (a cell of an
object-dtype column), or NaN (an absent value, or the result of a failed
`pd.to_numeric(..., errors="coerce")`). -/
inductive Value where
  | num (q : ℚ)
  | str (s : String)
  | na
deriving DecidableEq, Repr

/-- Rendering of a cell into a report message (abbreviates Python str()). -/
def valueStr : Value → String
  | .num q => toString q
  | .str s => s
  | .na => "nan"

/-- One record: a mapping from column name to cell value. -/
abbrev Row := List (String × Value)

/-- A pandas DataFrame: a column-name list plus the records. Every record of
a frame produced by `read_csv` carries the same column set; a cell missing
from a record reads as NaN, as in pandas. -/
structure DataFrame where
  cols : List String
  rows : List Row
deriving DecidableEq, Repr

/-- Cell access `df[col][row]`: the stored value, NaN when absent. -/
def getVal (r : Row) (c : String) : Value := (r.lookup c).getD .na

/-- The column `df[c]` as the list of its cell values, one per row. -/
def column (df : DataFrame) (c : String) : List Value :=
  df.rows.map (fun r => getVal r c)

/-- Models `pd.to_numeric(cell, errors="coerce")`: a numeric cell keeps its
value, anything else coerces to NaN (`none`).  Numeric-looking text does not
arise here: a column the CSV parser could read as numbers is already `num`,
and in every reachable use of this function a `str` cell makes the
surrounding raw comparison raise first (see `series_has_str`). -/
def to_numeric : Value → Option ℚ
  | .num q => some q
  | _ => none

/-- Exceptions of the `requests` library relevant to this program.
`requests.get` itself raises transport-level errors such as a connection
failure or a timeout; `HTTPError` is raised only by
`Response.raise_for_status`, which this program never calls. -/
inductive ReqException where
  | httpError
  | connectionError
  | timeoutError
deriving DecidableEq, Repr

/-- The Python exceptions the embedded fragments can raise. -/
inductive PyErr where
  /-- pandas KeyError: a merge column absent from one of the frames. -/
  | keyError (col : String)
  /-- pandas MergeError from a failed `validate=` check, with its message. -/
  | mergeError (msg : String)
  /-- TypeError: ordering comparison between a str cell and a number. -/
  | typeError
  /-- IndexError: `results[0]` on an empty list. -/
  | indexError
  /-- AttributeError: attribute access (`.empty`) on a Python bool. -/
  | attributeError
  /-- An exception raised by `requests.get` escaping to the caller. -/
  | reqExn (e : ReqException)
deriving DecidableEq, Repr

/- ===================== MergeEngine: check_merge_tables ===================== -/

/-- The join-key column of a frame, one entry per row (NaN for an absent
cell; pandas joins NaN keys to NaN keys). -/
def keyColumn (df : DataFrame) (key : String) : List Value :=
  df.rows.map (fun r => getVal r key)

/-- Non-key columns present in both frames; pandas suffixes these. -/
def collisions (left right : DataFrame) (key : String) : List String :=
  right.cols.filter (fun c => c != key && left.cols.contains c)

/-- Apply the merge suffix of one side (`none` keeps the name) to the
colliding columns of a record. -/
def renameRow (collide : List String) (suf : Option String) (r : Row) : Row :=
  match suf with
  | none => r
  | some s => r.map (fun p => if collide.contains p.1 then (p.1 ++ s, p.2) else p)

/-- Same renaming on a column-name list. -/
def renameCols (collide : List String) (suf : Option String) (cs : List String) : List String :=
  match suf with
  | none => cs
  | some s => cs.map (fun c => if collide.contains c then c ++ s else c)

/-- The pandas MergeError message for a failed `validate="one_to_many"`. -/
def nonUniqueMsg : String :=
  "Merge keys are not unique in left dataset; not a one-to-many merge"

/-- Models `left.merge(right, on=key, validate="one_to_many", suffixes=(lsuf, rsuf))`:
KeyError if `key` is absent from either frame; MergeError if the key values
of `left` are not unique (the one-to-many validation); otherwise the inner
join — one output row per (left row, right row) pair sharing the key value,
the key column kept once and colliding non-key columns suffixed per side. -/
def pd_merge (left right : DataFrame) (key : String) (lsuf rsuf : Option String) :
    Except PyErr DataFrame :=
  if left.cols.contains key = false then .error (.keyError key)
  else if right.cols.contains key = false then .error (.keyError key)
  else if (keyColumn left key).Nodup then
    let collide := collisions left right key
    .ok { cols := renameCols collide lsuf left.cols ++
                  renameCols collide rsuf (right.cols.filter (fun c => c != key)),
          rows := (left.rows.map (fun l =>
            (right.rows.filter (fun r => getVal r key == getVal l key)).map (fun r =>
              renameRow collide lsuf l ++
                renameRow collide rsuf (r.filter (fun p => p.1 != key))))).flatten }
  else .error (.mergeError nonUniqueMsg)

/-- The success message of `check_merge_tables`. -/
def passMsg : String := "✅ Merge tables passed!"

/-- The message built when a merge succeeded but produced zero rows:
`f"❌ Merge tables failed.\nCould not merge {set(left key)}\non\n{set(right key)}."`
(the Python `set` call deduplicates the key values). -/
def mergeFailMsg (kleft kright : List Value) : String :=
  "❌ Merge tables failed.\nCould not merge " ++ toString (kleft.dedup.map valueStr) ++
    "\non\n" ++ toString (kright.dedup.map valueStr) ++ "."

/-- The message of the `except pd.errors.MergeError` handler:
`f"❌ Merge tables failed. \n{err}"`. -/
def mergeErrCaughtMsg (e : String) : String := "❌ Merge tables failed. \n" ++ e

/-- Models `check_merge_tables(df_event, df_occurrence, df_emof)`:
`df = None`; merge event with occurrence on `eventID` (validated
one-to-many, default suffixes `("_x", "_y")`); if that result is empty,
return `(None, message)`.  Otherwise merge the result with emof on
`occurrenceID` (validated one-to-many, suffixes `(None, "r_")`), binding the
result to `df`; if `df` is empty, return `(df, message)` — the empty frame
itself.  `pd.errors.MergeError` from either merge is caught and yields
`(None, caught message)` (`df` is still `None` in both cases, because the
assignment from the failing merge never happened); a KeyError propagates. -/
def check_merge_tables (df_event df_occurrence df_emof : DataFrame) :
    Except PyErr (Option DataFrame × String) :=
  match pd_merge df_event df_occurrence "eventID" (some "_x") (some "_y") with
  | .error (.mergeError e) => .ok (none, mergeErrCaughtMsg e)
  | .error e => .error e
  | .ok df_event_occur =>
    if df_event_occur.rows.isEmpty then
      .ok (none, mergeFailMsg (keyColumn df_event "eventID")
                              (keyColumn df_occurrence "eventID"))
    else
      match pd_merge df_event_occur df_emof "occurrenceID" none (some "r_") with
      | .error (.mergeError e) => .ok (none, mergeErrCaughtMsg e)
      | .error e => .error e
      | .ok df =>
        if df.rows.isEmpty then
          .ok (some df, mergeFailMsg (keyColumn df_occurrence "occurrenceID")
                                     (keyColumn df_emof "occurrenceID"))
        else .ok (some df, passMsg)

/-- Row count of the merged frame a `check_merge_tables` result carries,
when it carries one. -/
def mergedRowCount (r : Except PyErr (Option DataFrame × String)) : Option ℕ :=
  match r with
  | .ok (some df, _) => some df.rows.length
  | _ => none

/-- Message component of a `check_merge_tables` result. -/
def mergeMsg (r : Except PyErr (Option DataFrame × String)) : Option String :=
  match r with
  | .ok (_, m) => some m
  | _ => none

/- Concrete frames for the merge-stage theorems. -/

/-- Event table with the single event E1. -/
def evC1 : DataFrame := ⟨["eventID"], [[("eventID", .str "E1")]]⟩

/-- Occurrence table: one occurrence O1 at event E1. -/
def occC1 : DataFrame :=
  ⟨["eventID", "occurrenceID"],
   [[("eventID", .str "E1"), ("occurrenceID", .str "O1")]]⟩

/-- Emof table with two rows: one keyed to O1 and one keyed to the dangling
occurrence O2 that no occurrence record carries. -/
def emofC1 : DataFrame :=
  ⟨["occurrenceID", "measurementValue"],
   [[("occurrenceID", .str "O1"), ("measurementValue", .num 1)],
    [("occurrenceID", .str "O2"), ("measurementValue", .num 2)]]⟩

/- ===================== FieldValidators ===================== -/

/-- Models `check_null_values(df, columns)`:
`missing = df.columns[df.isna().any()].to_list()` — the columns of `df` (all
of them; the `columns` argument is never read) in which some record holds a
null value. -/
def null_columns (df : DataFrame) : List String :=
  df.cols.filter (fun c => df.rows.any (fun r => getVal r c == Value.na))

/-- The warning `f"⚠️  Columns {missing} have missing values."`. -/
def nullWarnMsg (missing : List String) : String :=
  "⚠️  Columns " ++ toString missing ++ " have missing values."

/-- `check_null_values(df, columns)` from the source: `(True, pass message)`
when no column of `df` holds a null value, otherwise `(False, warning)`
naming the offending columns.  The `columns` parameter is accepted and
ignored, exactly as in the source. -/
def check_null_values (df : DataFrame) (columns : List String) : Bool × String :=
  let missing := null_columns df
  if missing.isEmpty then (true, "✅ Passed null values check!")
  else (false, nullWarnMsg missing)

/-- Does the raw column contain a str cell?  pandas evaluates
`df[col] <= bound` elementwise; an ordering comparison between a str cell
and a number raises TypeError, so the whole expression raises as soon as
any cell of an object-dtype column is text. -/
def series_has_str (col : List Value) : Bool :=
  col.any (fun v => match v with | .str _ => true | _ => false)

/-- The mask predicate of `check_latitude`/`check_longitude` on one cell:
`pd.to_numeric(v, errors="coerce").isna() | (v <= lo) | (v >= hi)`, for a
cell of a numeric column (numbers compare, NaN comparisons are False). -/
def coord_invalid (lo hi : ℚ) (v : Value) : Bool :=
  (to_numeric v).isNone ||
    (match v with | .num x => decide (x ≤ lo) | _ => false) ||
    (match v with | .num x => decide (hi ≤ x) | _ => false)

/-- `df[mask].index.tolist()`: the positions (default RangeIndex) of the
rows of column `c` whose cell satisfies the invalid-coordinate mask. -/
def invalid_ix (df : DataFrame) (c : String) (lo hi : ℚ) : List ℕ :=
  (List.range (column df c).length).filter
    (fun i => coord_invalid lo hi (((column df c).get? i).getD .na))

/-- `f"❌ Invalid `decimalLatitude` values detected. {invalid_lat.index.tolist()}"`. -/
def latFailMsg (ix : List ℕ) : String :=
  "❌ Invalid `decimalLatitude` values detected. " ++ toString ix

/-- The latitude pass message. -/
def latPassMsg : String := "✅ Passed `decimalLatitude` bounds!"

/-- Models `check_latitude(df)`: missing-column warning when the frame has
no `decimalLatitude` column; TypeError when the raw bounds comparisons hit a
str cell; otherwise `(True, pass)` when no cell is NaN, ≤ −90 or ≥ 90, and
`(False, message listing the offending row indices)` otherwise. -/
def check_latitude (df : DataFrame) : Except PyErr (Bool × String) :=
  if df.cols.contains "decimalLatitude" = false then
    .ok (false, "⚠️  Cannot find `decimalLatitude` column.")
  else if series_has_str (column df "decimalLatitude") then .error .typeError
  else
    let ix := invalid_ix df "decimalLatitude" (-90) 90
    if ix.isEmpty then .ok (true, latPassMsg)
    else .ok (false, latFailMsg ix)

/-- `f" Invalid decimalLongitude values detected. {invalid_lon.index.tolist()}"`
(the longitude failure message in the source really does start with a space and
carries no ❌). -/
def lonFailMsg (ix : List ℕ) : String :=
  " Invalid decimalLongitude values detected. " ++ toString ix

/-- The longitude pass message. -/
def lonPassMsg : String := "✅ Passed `decimalLongitude` bounds!"

/-- Models `check_longitude(df)`: the same shape as `check_latitude` with
bounds ±180 and the `decimalLongitude` column. -/
def check_longitude (df : DataFrame) : Except PyErr (Bool × String) :=
  if df.cols.contains "decimalLongitude" = false then
    .ok (false, "⚠️  Cannot find `decimalLongitude` column.")
  else if series_has_str (column df "decimalLongitude") then .error .typeError
  else
    let ix := invalid_ix df "decimalLongitude" (-180) 180
    if ix.isEmpty then .ok (true, lonPassMsg)
    else .ok (false, lonFailMsg ix)

/-- Python `==` between a tuple and a string compares objects of different,
non-coercible types and is always False. -/
def pyTupleEqStr (t : String × String) (s : String) : Bool := false

/-- The column-presence test of `check_depth_consistency` as the source
writes it: `("minimumDepthInMeters", "maximumDepthInMeters") in df.columns`.
The tested object is the tuple itself, not the two names: membership
compares the tuple for equality against each column label, and the labels
of every frame in this program are strings, so the test is false no matter
which columns the frame has. -/
def depth_tuple_in_columns (df : DataFrame) : Bool :=
  df.cols.any (fun c =>
    pyTupleEqStr ("minimumDepthInMeters", "maximumDepthInMeters") c)

/-- The warning returned when the presence test fails. -/
def noDepthMsg : String :=
  "⚠️  No depth information found (minimumDepthInMeters/maximumDepthInMeters)."

/-- Models `check_depth_consistency(df)`.  Because `depth_tuple_in_columns`
is false for every frame, the function always takes the early return and
reports the no-depth-information warning.  Were the branch below it ever
reached, it would read `df["minimumDepthInMeters"]` into **both** numeric
series (the max series is a copy-paste of the min one), test emptiness
(`.isna().empty`) instead of null-ness, collapse the per-row comparison with
`all(min_depth >= max_depth)` into a Python bool, and then raise
AttributeError at `illogical.empty` — a bool has no `.empty` attribute — so
that branch is `AttributeError`, not a finding. -/
def check_depth_consistency (df : DataFrame) : Except PyErr (Bool × String) :=
  if depth_tuple_in_columns df = false then .ok (false, noDepthMsg)
  else .error .attributeError

/- Concrete frames for the field-validator theorems. -/

/-- A table whose only column is outside every required-column list and
holds a null value. -/
def dfStray : DataFrame := ⟨["x"], [[("x", Value.na)]]⟩

/-- A table with both depth columns present and minimum 5 > maximum 2 in
its single record. -/
def dfDepth : DataFrame :=
  ⟨["minimumDepthInMeters", "maximumDepthInMeters"],
   [[("minimumDepthInMeters", .num 5), ("maximumDepthInMeters", .num 2)]]⟩

/-- A table whose latitude column holds the non-numeric text "abc". -/
def dfLatStr : DataFrame :=
  ⟨["decimalLatitude"], [[("decimalLatitude", .str "abc")]]⟩

/-- A table whose single record is out of bounds in both coordinates. -/
def dfCoord : DataFrame :=
  ⟨["decimalLatitude", "decimalLongitude"],
   [[("decimalLatitude", .num 95), ("decimalLongitude", .num 200)]]⟩

/- ============ TaxonomicResolver: check_scientific_name and friends ============ -/

/-- One candidate record of the WoRMS response body, with the fields the
source reads: `status`, `valid_name`, `url`. -/
structure WormsRecord where
  status : String
  valid_name : String
  url : String
deriving DecidableEq, Repr

/-- An HTTP response from the WoRMS endpoint: the status code, and the
parsed JSON body (a list of candidate records), read only when the code
is 200. -/
structure HttpResponse where
  status_code : ℕ
  json : List WormsRecord
deriving DecidableEq, Repr

/-- The outcome of one `requests.get` attempt: a response, or a raised
`requests` exception. -/
inductive FetchOutcome where
  | resp (r : HttpResponse)
  | exn (e : ReqException)
deriving DecidableEq, Repr

/-- Models `@stamina.retry(on=requests.exceptions.HTTPError, attempts=3)`
around a call whose attempt `i` yields `t i`: an outcome that is a raised
`HTTPError` is retried with backoff while attempts remain and re-raised on
the last one; every other outcome — a response, or any other exception —
passes through at once, with no retry. -/
def stamina_retry (t : ℕ → FetchOutcome) : ℕ → ℕ → FetchOutcome
  | 0, i => t i
  | 1, i => t i
  | n + 2, i =>
    match t i with
    | .exn .httpError => stamina_retry t (n + 1) (i + 1)
    | out => out

/-- Number of attempts `stamina_retry` performs. -/
def stamina_attempts (t : ℕ → FetchOutcome) : ℕ → ℕ → ℕ
  | 0, _ => 1
  | 1, _ => 1
  | n + 2, i =>
    match t i with
    | .exn .httpError => 1 + stamina_attempts t (n + 1) (i + 1)
    | _ => 1

/-- Models `_check_scientific_name(name)`: `requests.get` on the WoRMS URL
under the stamina decorator with `attempts=3`.  `t` is the transport:
the outcome of each attempt for the queried name. -/
def _check_scientific_name (t : ℕ → FetchOutcome) : FetchOutcome :=
  stamina_retry t 3 0

/-- The bail-early message `f"⚠️  {response.status_code=} for {name=}."`
(the Python `=` debug rendering, abbreviated without repr quoting). -/
def bailMsg (name : Value) (code : ℕ) : String :=
  "⚠️  response.status_code=" ++ toString code ++ " for name=" ++ valueStr name ++ "."

/-- `f"⚠️  WoRMS API Error: {response.status_code} for {name=}"`. -/
def apiErrorMsg (name : Value) (code : ℕ) : String :=
  "⚠️  WoRMS API Error: " ++ toString code ++ " for name=" ++ valueStr name

/-- `f"Found 1 match for {name=}"`. -/
def oneMatchMsg (name : Value) : String :=
  "Found 1 match for name=" ++ valueStr name

/-- The more-than-one-match message.  The source forgot the `f` prefix on
this literal, so the braces around `name=` are literal text. -/
def multiMatchMsg : String :=
  "⚠️  Found more than 1 match for \x7bname=\x7d, selecting the first one"

/-- The `is_unique` string of `check_scientific_name` for a 200 response. -/
def uniqMsgOf (name : Value) (r : HttpResponse) : String :=
  if r.json.length > 1 then multiMatchMsg else oneMatchMsg name

/-- The not-accepted warning
the is-unique line followed by a Taxon line naming the reported status,
the valid name and the reference URL from the authority. -/
def unacceptedMsg (is_unique : String) (result : WormsRecord) : String :=
  is_unique ++ "\n⚠️  Taxon result[status]=" ++ result.status ++
    ". Accepted name: result[valid_name]=" ++ result.valid_name ++
    ", result[url]=" ++ result.url

/-- The body of `check_scientific_name` once a response is in hand:
status 204 or 400 bail out at once as a failure; any status other than 200
becomes the WoRMS-API-error failure message; a 200 response is parsed,
`results[0]` raises IndexError on an empty body, and otherwise the first
`status` field of the first candidate decides: anything but "accepted" is a
failure carrying the valid name and URL, "accepted" is a success. -/
def check_scientific_name_response (name : Value) (r : HttpResponse) :
    Except PyErr (Bool × String) :=
  if r.status_code == 204 || r.status_code == 400 then
    .ok (false, bailMsg name r.status_code)
  else if r.status_code == 200 then
    match r.json with
    | [] => .error .indexError
    | result :: _ =>
      if result.status != "accepted" then
        .ok (false, unacceptedMsg (uniqMsgOf name r) result)
      else .ok (true, uniqMsgOf name r ++ ".")
  else .ok (false, apiErrorMsg name r.status_code)

/-- `check_scientific_name` on a cache miss: perform the retry-wrapped fetch
and interpret the outcome; an exception raised by the fetch propagates to
the caller (the source has no handler for it). -/
def check_scientific_name_uncached (t : ℕ → FetchOutcome) (name : Value) :
    Except PyErr (Bool × String) :=
  match _check_scientific_name t with
  | .exn e => .error (.reqExn e)
  | .resp r => check_scientific_name_response name r

/-- The `functools.lru_cache` store on `check_scientific_name`, keyed by the
exact queried value. -/
abbrev Cache := List (Value × (Bool × String))

/-- Models the `@functools.lru_cache(maxsize=128)`-wrapped
`check_scientific_name(name)` under the no-eviction proviso, over a
transport that delivers a response per name (raised transport exceptions
are the `check_scientific_name_uncached` model): a cache hit returns the
stored pair without touching the network; a miss issues one request and
stores a normal return; a raising call stores nothing (`lru_cache` does not
memoize exceptions).  The ℕ component counts the network requests the call
issued. -/
def check_scientific_name_cached (t : Value → HttpResponse) (cache : Cache)
    (name : Value) : Except PyErr (Bool × String) × Cache × ℕ :=
  match cache.lookup name with
  | some r => (.ok r, cache, 0)
  | none =>
    match check_scientific_name_response name (t name) with
    | .ok r => (.ok r, (name, r) :: cache, 1)
    | .error e => (.error e, cache, 1)

/-- `names = list(set(df["scientificName"]))`: the distinct scientific-name
cells of the table, each exactly once. -/
def dispatch_names (df : DataFrame) : List Value :=
  (df.rows.map (fun r => getVal r "scientificName")).dedup

/-- The comprehension `[check_scientific_name(name) for name in names]`,
threading the cache and summing the network requests issued.  A raising
lookup aborts the comprehension as it does in Python: the exception
propagates, the later names are never resolved, and the requests already
issued (including the one of the raising call) stay counted. -/
def resolve_names (t : Value → HttpResponse) :
    Cache → List Value → Except PyErr (List (Bool × String)) × Cache × ℕ
  | c, [] => (.ok [], c, 0)
  | c, n :: ns =>
    match check_scientific_name_cached t c n with
    | (.error e, c1, k) => (.error e, c1, k)
    | (.ok r, c1, k) =>
      match resolve_names t c1 ns with
      | (.ok rs, c2, ks) => (.ok (r :: rs), c2, k + ks)
      | (.error e, c2, ks) => (.error e, c2, k + ks)

/-- The two shapes `check_scientific_names` returns: the odd
`[None, message]` pair when the column is absent, or the list of messages of
the failed lookups. -/
inductive NamesOutcome where
  | missingColumn (msg : String)
  | failures (msgs : List String)
deriving DecidableEq, Repr

/-- Models `check_scientific_names(df)`: bail out when the table has no
`scientificName` column; otherwise deduplicate the column values, resolve
each one through the cached lookup, and keep the messages of the results
whose flag is False; an exception raised by a lookup propagates out of the
function. -/
def check_scientific_names (t : Value → HttpResponse) (c : Cache)
    (df : DataFrame) : Except PyErr NamesOutcome × Cache × ℕ :=
  if df.cols.contains "scientificName" = false then
    (.ok (.missingColumn "⚠️  Missing the `scientificName` column!"), c, 0)
  else
    match resolve_names t c (dispatch_names df) with
    | (.ok results, c2, k) =>
      (.ok (.failures (results.filterMap (fun r =>
         if r.1 then none else some r.2))), c2, k)
    | (.error e, c2, k) => (.error e, c2, k)

/-- Did the call return normally (no Python exception)? -/
def resOk (r : Except PyErr (Bool × String)) : Bool :=
  match r with
  | .ok _ => true
  | .error _ => false

/- Concrete data for the name-resolution theorems. -/

/-- A transport whose every attempt raises a connection error: the
name-authority host is unreachable. -/
def connErrTransport : ℕ → FetchOutcome := fun _ => .exn .connectionError

/-- A transport whose every attempt yields a bare 500 response. -/
def http500Transport : ℕ → FetchOutcome := fun _ => .resp ⟨500, []⟩

/-- A WoRMS answer marking the queried name a synonym of "Genus species". -/
def synonymRecord : WormsRecord :=
  ⟨"synonym", "Genus species", "https://www.marinespecies.org/aphia.php?p=taxdetails"⟩

/-- A WoRMS answer whose first candidate is accepted. -/
def acceptedRecord : WormsRecord :=
  ⟨"accepted", "Abra alba", "https://www.marinespecies.org/aphia.php?p=taxdetails"⟩

/-- A 200 response with the synonym candidate alone. -/
def synonymResponse : HttpResponse := ⟨200, [synonymRecord]⟩

/-- A 200 response with the accepted candidate alone. -/
def acceptedResponse : HttpResponse := ⟨200, [acceptedRecord]⟩

/-- A per-name transport answering every name with the accepted candidate. -/
def okTransport : Value → HttpResponse := fun _ => acceptedResponse

/-- A per-name transport answering every name 200 with an empty candidate
list, on which `results[0]` raises IndexError. -/
def emptyBodyTransport : Value → HttpResponse := fun _ => ⟨200, []⟩

/-- A table whose scientificName column holds "Abra alba" twice and
"Zeus faber" once. -/
def dfNames : DataFrame :=
  ⟨["scientificName"],
   [[("scientificName", .str "Abra alba")],
    [("scientificName", .str "Abra alba")],
    [("scientificName", .str "Zeus faber")]]⟩

/-- Occurrence table referencing event E2, so it shares no eventID with
`evC1`. -/
def occW2 : DataFrame :=
  ⟨["eventID", "occurrenceID"],
   [[("eventID", .str "E2"), ("occurrenceID", .str "O1")]]⟩

/-- Emof table keyed to O9, which no occurrence record carries. -/
def emofW : DataFrame := ⟨["occurrenceID"], [[("occurrenceID", .str "O9")]]⟩

/-- Event table with a duplicated eventID. -/
def evDup : DataFrame :=
  ⟨["eventID"], [[("eventID", .str "E1")], [("eventID", .str "E1")]]⟩

/-- Occurrence table with a duplicated occurrenceID, both rows at event E1. -/
def occDup : DataFrame :=
  ⟨["eventID", "occurrenceID"],
   [[("eventID", .str "E1"), ("occurrenceID", .str "O1")],
    [("eventID", .str "E1"), ("occurrenceID", .str "O1")]]⟩

/- ===================== Theorems ===================== -/

/-- C1.  The merge stage performs no row-count reconciliation at all: on
tables where both one-to-many merges succeed and are non-empty but one emof
row has no occurrence ancestor, `check_merge_tables` reports the success
message even though the doubly-merged result has 1 row and the emof table
has 2.  This contradicts the claim (and step 7 of the docstring of the
script itself)
that the row count of the final merge is checked against the emof row count
and a mismatch reported as Critical. -/
theorem merge_reconciliation_missing :
    mergeMsg (check_merge_tables evC1 occC1 emofC1) = some passMsg ∧
    mergedRowCount (check_merge_tables evC1 occC1 emofC1) = some 1 ∧
    emofC1.rows.length = 2 :=
  ⟨rfl, rfl, rfl⟩

/-- C2.  If the left ("one") side of either validated one-to-many merge has
a duplicated join-key value — a duplicated eventID in the event table, or a
duplicated occurrenceID in the event-occurrence result — pandas raises
MergeError, `check_merge_tables` catches it, and the caller gets back no
DataFrame (`None`) together with the caught failure message, which differs
from the success message; a silently row-duplicated merged frame is never
returned. -/
theorem check_merge_tables_nonunique_key (e o m : DataFrame) :
    (e.cols.contains "eventID" = true → o.cols.contains "eventID" = true →
      ¬ (keyColumn e "eventID").Nodup →
      check_merge_tables e o m = .ok (none, mergeErrCaughtMsg nonUniqueMsg)) ∧
    (∀ d : DataFrame,
      pd_merge e o "eventID" (some "_x") (some "_y") = .ok d →
      d.rows.isEmpty = false →
      d.cols.contains "occurrenceID" = true → m.cols.contains "occurrenceID" = true →
      ¬ (keyColumn d "occurrenceID").Nodup →
      check_merge_tables e o m = .ok (none, mergeErrCaughtMsg nonUniqueMsg)) ∧
    mergeErrCaughtMsg nonUniqueMsg ≠ passMsg := by
  refine ⟨?_, ?_, by decide⟩
  · intro he ho hnd
    have he' : "eventID" ∈ e.cols := by simpa using he
    have ho' : "eventID" ∈ o.cols := by simpa using ho
    have h1 : pd_merge e o "eventID" (some "_x") (some "_y") =
        .error (.mergeError nonUniqueMsg) := by
      simp [pd_merge, he', ho', hnd]
    simp [check_merge_tables, h1]
  · intro d hd hne hdc hmc hnd
    have hdc' : "occurrenceID" ∈ d.cols := by simpa using hdc
    have hmc' : "occurrenceID" ∈ m.cols := by simpa using hmc
    have h2 : pd_merge d m "occurrenceID" none (some "r_") =
        .error (.mergeError nonUniqueMsg) := by
      simp [pd_merge, hdc', hmc', hnd]
    simp [check_merge_tables, hd, hne, h2]

/-- C2 witness: a duplicated eventID in the event table, and a duplicated
occurrenceID in the event-occurrence result, each produce
`(None, caught failure message)`. -/
theorem check_merge_tables_nonunique_key_witness :
    check_merge_tables evDup occC1 emofC1 =
      .ok (none, mergeErrCaughtMsg nonUniqueMsg) ∧
    check_merge_tables evC1 occDup emofC1 =
      .ok (none, mergeErrCaughtMsg nonUniqueMsg) :=
  ⟨(check_merge_tables_nonunique_key evDup occC1 emofC1).1 rfl rfl (by decide),
   (check_merge_tables_nonunique_key evC1 occDup emofC1).2.1 _ rfl rfl rfl rfl
     (by decide)⟩

/-- C10.  The two empty-merge outcomes are asymmetric: when the first merge
(event with occurrence) succeeds with zero rows the function returns `None`
with the failure message, but when the second merge (with emof) succeeds
with zero rows it returns the empty merged frame itself (`some`), so a
caller testing `df is not None` proceeds in the second case but not the
first. -/
theorem check_merge_tables_empty_asymmetry (e o m : DataFrame) :
    (∀ d : DataFrame,
      pd_merge e o "eventID" (some "_x") (some "_y") = .ok d →
      d.rows.isEmpty = true →
      check_merge_tables e o m =
        .ok (none, mergeFailMsg (keyColumn e "eventID") (keyColumn o "eventID"))) ∧
    (∀ d d2 : DataFrame,
      pd_merge e o "eventID" (some "_x") (some "_y") = .ok d →
      d.rows.isEmpty = false →
      pd_merge d m "occurrenceID" none (some "r_") = .ok d2 →
      d2.rows.isEmpty = true →
      check_merge_tables e o m =
        .ok (some d2, mergeFailMsg (keyColumn o "occurrenceID")
                                   (keyColumn m "occurrenceID"))) := by
  constructor
  · intro d hd hemp
    simp [check_merge_tables, hd, hemp]
  · intro d d2 hd hne hd2 hemp
    simp [check_merge_tables, hd, hne, hd2, hemp]

/-- C10 witness: with disjoint eventIDs the first merge is empty and the
result carries `None`; with disjoint occurrenceIDs the second merge is
empty and the result carries the empty merged frame itself. -/
theorem check_merge_tables_empty_asymmetry_witness :
    check_merge_tables evC1 occW2 emofC1 =
      .ok (none, mergeFailMsg (keyColumn evC1 "eventID") (keyColumn occW2 "eventID")) ∧
    check_merge_tables evC1 occC1 emofW =
      .ok (some ⟨["eventID", "occurrenceID"], []⟩,
           mergeFailMsg (keyColumn occC1 "occurrenceID")
                        (keyColumn emofW "occurrenceID")) :=
  ⟨(check_merge_tables_empty_asymmetry evC1 occW2 emofC1).1 _ rfl rfl,
   (check_merge_tables_empty_asymmetry evC1 occC1 emofW).2 _ _ rfl rfl rfl rfl⟩

/-- C3.  `check_depth_consistency` never reaches its depth logic: the
column-presence test compares the tuple
`("minimumDepthInMeters", "maximumDepthInMeters")` against the string
column labels, which is false for every frame, so the function returns the
no-depth-information warning even for `dfDepth`, whose two depth columns
are present and whose single record has minimum 5 > maximum 2; no Critical
finding with offending indices is ever produced. -/
theorem check_depth_consistency_always_skips (df : DataFrame) :
    check_depth_consistency df = .ok (false, noDepthMsg) ∧
    dfDepth.cols.contains "minimumDepthInMeters" = true ∧
    dfDepth.cols.contains "maximumDepthInMeters" = true ∧
    check_depth_consistency dfDepth = .ok (false, noDepthMsg) := by
  have h : ∀ d : DataFrame, depth_tuple_in_columns d = false := by
    intro d
    simp [depth_tuple_in_columns, pyTupleEqStr]
  refine ⟨?_, rfl, rfl, ?_⟩ <;> simp [check_depth_consistency, h]

/-- Membership in the invalid-coordinate index list of `df[c]`: exactly the
positions holding a cell that coerces to NaN or lies at or beyond the
bounds. -/
theorem mem_invalid_ix (df : DataFrame) (c : String) (lo hi : ℚ) (i : ℕ) :
    i ∈ invalid_ix df c lo hi ↔
      ∃ v, (column df c).get? i = some v ∧
        (to_numeric v = none ∨ ∃ x : ℚ, v = .num x ∧ (x ≤ lo ∨ hi ≤ x)) := by
  have hval : ∀ v : Value, coord_invalid lo hi v = true ↔
      (to_numeric v = none ∨ ∃ x : ℚ, v = .num x ∧ (x ≤ lo ∨ hi ≤ x)) := by
    intro v
    cases v <;> simp [coord_invalid, to_numeric]
  unfold invalid_ix
  rw [List.mem_filter, List.mem_range]
  constructor
  · rintro ⟨hlt, hp⟩
    obtain ⟨v, hv⟩ : ∃ v, (column df c).get? i = some v := by
      rw [List.get?_eq_get hlt]
      exact ⟨_, rfl⟩
    refine ⟨v, hv, ?_⟩
    rw [hv] at hp
    exact (hval v).mp hp
  · rintro ⟨v, hv, hbad⟩
    obtain ⟨hlt, -⟩ := List.get?_eq_some.mp hv
    refine ⟨hlt, ?_⟩
    rw [hv]
    exact (hval v).mpr hbad

/-- C4 (amended).  On a table that has both coordinate columns and whose
coordinate cells are all numeric or null, `check_latitude` passes exactly
when no cell is null, ≤ −90 or ≥ 90 (the poles themselves are invalid), and
otherwise fails listing exactly the offending row positions;
`check_longitude` behaves symmetrically with ±180; the two index lists are
characterised independently of one another, so one record can appear in
both. -/
theorem coordinate_bounds_characterization (df : DataFrame)
    (hlat : df.cols.contains "decimalLatitude" = true)
    (hlon : df.cols.contains "decimalLongitude" = true)
    (hslat : series_has_str (column df "decimalLatitude") = false)
    (hslon : series_has_str (column df "decimalLongitude") = false) :
    (invalid_ix df "decimalLatitude" (-90) 90 = [] →
       check_latitude df = .ok (true, latPassMsg)) ∧
    (invalid_ix df "decimalLatitude" (-90) 90 ≠ [] →
       check_latitude df =
         .ok (false, latFailMsg (invalid_ix df "decimalLatitude" (-90) 90))) ∧
    (∀ i : ℕ, i ∈ invalid_ix df "decimalLatitude" (-90) 90 ↔
       ∃ v, (column df "decimalLatitude").get? i = some v ∧
         (to_numeric v = none ∨ ∃ x : ℚ, v = .num x ∧ (x ≤ -90 ∨ 90 ≤ x))) ∧
    (invalid_ix df "decimalLongitude" (-180) 180 = [] →
       check_longitude df = .ok (true, lonPassMsg)) ∧
    (invalid_ix df "decimalLongitude" (-180) 180 ≠ [] →
       check_longitude df =
         .ok (false, lonFailMsg (invalid_ix df "decimalLongitude" (-180) 180))) ∧
    (∀ i : ℕ, i ∈ invalid_ix df "decimalLongitude" (-180) 180 ↔
       ∃ v, (column df "decimalLongitude").get? i = some v ∧
         (to_numeric v = none ∨ ∃ x : ℚ, v = .num x ∧ (x ≤ -180 ∨ 180 ≤ x))) := by
  have hlat' : "decimalLatitude" ∈ df.cols := by simpa using hlat
  have hlon' : "decimalLongitude" ∈ df.cols := by simpa using hlon
  refine ⟨?_, ?_, fun i => mem_invalid_ix df "decimalLatitude" (-90) 90 i,
          ?_, ?_, fun i => mem_invalid_ix df "decimalLongitude" (-180) 180 i⟩
  · intro hnil
    simp [check_latitude, hlat', hslat, hnil]
  · intro hnn
    simp [check_latitude, hlat', hslat, List.isEmpty_iff, hnn]
  · intro hnil
    simp [check_longitude, hlon', hslon, hnil]
  · intro hnn
    simp [check_longitude, hlon', hslon, List.isEmpty_iff, hnn]

/-- C4 counterexample.  The claim promises a Critical flag listing the
offending row whenever some value is non-numeric, but on a table whose
latitude column holds the text "abc" the raw bounds comparison
`df["decimalLatitude"] <= -90` raises TypeError (str against int), so
`check_latitude` raises instead of returning any finding. -/
theorem check_latitude_str_raises :
    check_latitude dfLatStr = .error .typeError := rfl

/-- C4 witness: on the record with latitude 95 and longitude 200 both
checks fail independently, each listing row 0. -/
theorem coordinate_bounds_characterization_witness :
    check_latitude dfCoord = .ok (false, latFailMsg [0]) ∧
    check_longitude dfCoord = .ok (false, lonFailMsg [0]) ∧
    0 ∈ invalid_ix dfCoord "decimalLatitude" (-90) 90 ∧
    0 ∈ invalid_ix dfCoord "decimalLongitude" (-180) 180 := by
  have h := coordinate_bounds_characterization dfCoord rfl rfl rfl rfl
  have hxlat : invalid_ix dfCoord "decimalLatitude" (-90) 90 = [0] := by decide
  have hxlon : invalid_ix dfCoord "decimalLongitude" (-180) 180 = [0] := by decide
  refine ⟨?_, ?_, ?_, ?_⟩
  · have := h.2.1 (by simp [hxlat])
    rwa [hxlat] at this
  · have := h.2.2.2.2.1 (by simp [hxlon])
    rwa [hxlon] at this
  · simp [hxlat]
  · simp [hxlon]

/-- C5 counterexample.  `check_null_values` flags a column that is outside
the passed required-column list: on a table whose only column `x` (not
required) holds a null, it warns about `x` instead of passing. -/
theorem check_null_values_flags_stray_column :
    check_null_values dfStray ["occurrenceID"] = (false, nullWarnMsg ["x"]) := rfl

/-- C5 (amended).  `check_null_values(df, columns)` flags a Warning exactly
when some column of `df` — any column, the `columns` argument is never read
— holds a null value in some record, and the warning lists exactly the
columns of `df` with a null value. -/
theorem check_null_values_characterization (df : DataFrame) (columns : List String) :
    ((check_null_values df columns).1 = true ↔
       ∀ c ∈ df.cols, ∀ r ∈ df.rows, getVal r c ≠ Value.na) ∧
    (∀ c : String, c ∈ null_columns df ↔
       c ∈ df.cols ∧ ∃ r ∈ df.rows, getVal r c = Value.na) ∧
    (null_columns df ≠ [] →
       check_null_values df columns = (false, nullWarnMsg (null_columns df))) := by
  refine ⟨?_, ?_, ?_⟩
  · have hiff : (null_columns df).isEmpty = true ↔
        ∀ c ∈ df.cols, ∀ r ∈ df.rows, getVal r c ≠ Value.na := by
      rw [List.isEmpty_iff]
      unfold null_columns
      rw [List.filter_eq_nil_iff]
      simp
    unfold check_null_values
    by_cases h : (null_columns df).isEmpty = true
    · simp only [h, if_true]
      simpa using hiff.mp h
    · have h' : (null_columns df).isEmpty = false := by
        cases hh : (null_columns df).isEmpty
        · rfl
        · exact absurd hh h
      simp only [h', Bool.false_eq_true, if_false]
      constructor
      · intro hfalse
        exact absurd hfalse (by simp)
      · intro hall
        exact absurd (hiff.mpr hall) h
  · intro c
    unfold null_columns
    rw [List.mem_filter]
    simp
  · intro hnn
    have h' : (null_columns df).isEmpty = false := by
      rw [List.isEmpty_eq_false_iff_exists_mem]
      rcases List.exists_mem_of_ne_nil _ hnn with ⟨a, ha⟩
      exact ⟨a, ha⟩
    unfold check_null_values
    simp [h']

/-- C5 witness: on `dfStray` the amended characterisation yields the
warning naming exactly the null-holding column `x`. -/
theorem check_null_values_characterization_witness :
    check_null_values dfStray ["occurrenceID"] =
      (false, nullWarnMsg (null_columns dfStray)) :=
  (check_null_values_characterization dfStray ["occurrenceID"]).2.2 (by decide)

/-- C9.  The result of `check_null_values` is independent of its `columns`
argument: the function scans every column of the frame and never reads
`columns`. -/
theorem check_null_values_ignores_columns (df : DataFrame)
    (cs1 cs2 : List String) :
    check_null_values df cs1 = check_null_values df cs2 := rfl

/-- C6.  Name resolution can raise to the caller: the stamina decorator
retries only `requests.exceptions.HTTPError`, which `requests.get` never
raises (the source never calls `raise_for_status`), so an unreachable
authority — every attempt a connection error — propagates the exception out
of `check_scientific_name` on the very first attempt, with no retry and no
warning finding; and a retryable-looking 500 status is likewise answered
after a single attempt, never retried, with the lookup-failure message. -/
theorem check_scientific_name_raises_on_transport_error :
    check_scientific_name_uncached connErrTransport (.str "Abra alba") =
      .error (.reqExn .connectionError) ∧
    stamina_attempts connErrTransport 3 0 = 1 ∧
    check_scientific_name_uncached http500Transport (.str "Abra alba") =
      .ok (false, apiErrorMsg (.str "Abra alba") 500) ∧
    stamina_attempts http500Transport 3 0 = 1 :=
  ⟨rfl, rfl, rfl, rfl⟩

/-- Request count of the resolution comprehension: with a cache holding
none of the (pairwise distinct) names and every lookup returning normally,
each name costs exactly one network request. -/
theorem resolve_names_count (t : Value → HttpResponse) :
    ∀ (ns : List Value) (c : Cache), ns.Nodup →
      (∀ n ∈ ns, c.lookup n = none) →
      (∀ n ∈ ns, resOk (check_scientific_name_response n (t n)) = true) →
      (resolve_names t c ns).2.2 = ns.length := by
  intro ns
  induction ns with
  | nil => intro c _ _ _; rfl
  | cons n ns ih =>
    intro c hnd hfresh hok
    have hc : c.lookup n = none := hfresh n (by simp)
    obtain ⟨r, hr⟩ : ∃ r, check_scientific_name_response n (t n) = .ok r := by
      cases hres : check_scientific_name_response n (t n) with
      | ok r => exact ⟨r, rfl⟩
      | error e =>
        have := hok n (by simp)
        rw [hres] at this
        simp [resOk] at this
    have hcall : check_scientific_name_cached t c n = (.ok r, (n, r) :: c, 1) := by
      simp [check_scientific_name_cached, hc, hr]
    have hfresh2 : ∀ m ∈ ns, ((n, r) :: c).lookup m = none := by
      intro m hm
      have hne : m ≠ n := by
        rintro rfl
        exact (List.nodup_cons.mp hnd).1 hm
      have hbeq : (m == n) = false := beq_eq_false_iff_ne.mpr hne
      have hstep : ((n, r) :: c).lookup m = c.lookup m := by
        simp only [List.lookup, hbeq]
      rw [hstep]
      exact hfresh m (List.mem_cons_of_mem n hm)
    have htail : (resolve_names t ((n, r) :: c) ns).2.2 = ns.length :=
      ih ((n, r) :: c) (List.nodup_cons.mp hnd).2 hfresh2
        (fun m hm => hok m (by simp [hm]))
    rcases hrec : resolve_names t ((n, r) :: c) ns with ⟨res, c2, ks⟩
    rw [hrec] at htail
    simp at htail
    cases res with
    | ok rs => simp [resolve_names, hcall, hrec, htail, Nat.add_comm]
    | error e => simp [resolve_names, hcall, hrec, htail, Nat.add_comm]

/-- C7 counterexample.  `functools.lru_cache` does not memoize a raising
call: against an authority that answers 200 with an empty candidate list,
`check_scientific_name("Abra alba")` raises IndexError at `results[0]` and
stores nothing, so calling it twice with the same exact name and no
eviction in between issues two network requests — the unqualified
at-most-one-request claim is false of the code. -/
theorem lru_cache_does_not_memoize_raising_calls :
    (check_scientific_name_cached emptyBodyTransport [] (.str "Abra alba")).1 =
      .error .indexError ∧
    (check_scientific_name_cached emptyBodyTransport [] (.str "Abra alba")).2.2 +
      (check_scientific_name_cached emptyBodyTransport
        (check_scientific_name_cached emptyBodyTransport [] (.str "Abra alba")).2.1
        (.str "Abra alba")).2.2 = 2 :=
  ⟨rfl, rfl⟩

/-- C7 (amended).  The lru_cache on `check_scientific_name` and the
set-based deduplication in `check_scientific_names`, for lookups that
return normally (a raising call is not memoized — see the counterexample):
two calls for the same exact name with no eviction in between issue at most
one network request in total, the second call being a pure cache hit; the
dispatched name list of a table holds each distinct scientificName cell
exactly once (it is duplicate-free and has the same members as the column);
and resolving it from a fresh cache issues exactly one request per distinct
name. -/
theorem resolution_cache_and_dedup_normal_return (t : Value → HttpResponse) (c : Cache)
    (name : Value) (df : DataFrame)
    (h1 : resOk (check_scientific_name_response name (t name)) = true)
    (h2 : ∀ n ∈ dispatch_names df,
       resOk (check_scientific_name_response n (t n)) = true) :
    (check_scientific_name_cached t
        (check_scientific_name_cached t c name).2.1 name).2.2 = 0 ∧
    (check_scientific_name_cached t c name).2.2 +
      (check_scientific_name_cached t
        (check_scientific_name_cached t c name).2.1 name).2.2 ≤ 1 ∧
    (dispatch_names df).Nodup ∧
    (∀ v : Value, v ∈ dispatch_names df ↔
       ∃ r ∈ df.rows, getVal r "scientificName" = v) ∧
    (resolve_names t [] (dispatch_names df)).2.2 = (dispatch_names df).length := by
  have hsecond : (check_scientific_name_cached t
      (check_scientific_name_cached t c name).2.1 name).2.2 = 0 := by
    cases hc : c.lookup name with
    | some r =>
      simp [check_scientific_name_cached, hc]
    | none =>
      obtain ⟨r, hr⟩ : ∃ r, check_scientific_name_response name (t name) = .ok r := by
        cases hres : check_scientific_name_response name (t name) with
        | ok r => exact ⟨r, rfl⟩
        | error e =>
          rw [hres] at h1
          simp [resOk] at h1
      have hself : ((name, r) :: c).lookup name = some r := by
        simp [List.lookup]
      simp [check_scientific_name_cached, hc, hr, hself]
  have hfirst : (check_scientific_name_cached t c name).2.2 ≤ 1 := by
    cases hc : c.lookup name with
    | some r => simp [check_scientific_name_cached, hc]
    | none =>
      cases hres : check_scientific_name_response name (t name) with
      | ok r => simp [check_scientific_name_cached, hc, hres]
      | error e => simp [check_scientific_name_cached, hc, hres]
  refine ⟨hsecond, ?_, List.nodup_dedup _, ?_, ?_⟩
  · rw [hsecond]
    simpa using hfirst
  · intro v
    simp [dispatch_names, List.mem_dedup, List.mem_map]
  · exact resolve_names_count t (dispatch_names df) [] (List.nodup_dedup _)
      (fun n _ => rfl) h2

/-- C7 witness: with the always-accepted transport and a fresh cache, the
three-row table dispatches its two distinct names once each (two requests),
the dispatched list is duplicate-free, and a repeated lookup of
"Abra alba" is answered from the cache with zero further requests. -/
theorem resolution_cache_and_dedup_normal_return_witness :
    (resolve_names okTransport [] (dispatch_names dfNames)).2.2 =
      (dispatch_names dfNames).length ∧
    (dispatch_names dfNames).Nodup ∧
    (check_scientific_name_cached okTransport
        (check_scientific_name_cached okTransport [] (.str "Abra alba")).2.1
        (.str "Abra alba")).2.2 = 0 := by
  have h := resolution_cache_and_dedup_normal_return okTransport []
    (.str "Abra alba") dfNames rfl (by decide)
  exact ⟨h.2.2.2.2, h.2.2.1, h.1⟩

/-- C8.  For a 200 response whose candidate list is non-empty, the first
status field of the first candidate drives the classification: any status
other than "accepted" yields a failure result whose warning message carries
the valid name and reference URL from the authority, and "accepted" yields a
success result. -/
theorem first_candidate_status_classification (name : Value) (r : HttpResponse)
    (result : WormsRecord) (rest : List WormsRecord)
    (h200 : r.status_code = 200) (hjson : r.json = result :: rest) :
    (result.status ≠ "accepted" →
       check_scientific_name_response name r =
         .ok (false, unacceptedMsg (uniqMsgOf name r) result) ∧
       ∃ pre mid post : String,
         unacceptedMsg (uniqMsgOf name r) result =
           pre ++ (result.valid_name ++ (mid ++ (result.url ++ post)))) ∧
    (result.status = "accepted" →
       check_scientific_name_response name r =
         .ok (true, uniqMsgOf name r ++ ".")) := by
  constructor
  · intro hne
    constructor
    · have hb : (result.status != "accepted") = true := by
        simp [bne_iff_ne, hne]
      simp [check_scientific_name_response, h200, hjson, hb]
    · refine ⟨uniqMsgOf name r ++ "\n⚠️  Taxon result[status]=" ++ result.status ++
        ". Accepted name: result[valid_name]=", ", result[url]=", "", ?_⟩
      simp [unacceptedMsg, String.append_assoc]
  · intro heq
    have hb : (result.status != "accepted") = false := by
      simp [bne, heq]
    simp [check_scientific_name_response, h200, hjson, hb]

/-- C8 witness: the synonym response classifies as not accepted with the
valid name and URL in the warning, the accepted response as a success. -/
theorem first_candidate_status_classification_witness :
    check_scientific_name_response (.str "Sacco fragilis") synonymResponse =
      .ok (false, unacceptedMsg
        (uniqMsgOf (.str "Sacco fragilis") synonymResponse) synonymRecord) ∧
    check_scientific_name_response (.str "Abra alba") acceptedResponse =
      .ok (true, uniqMsgOf (.str "Abra alba") acceptedResponse ++ ".") :=
  ⟨((first_candidate_status_classification (.str "Sacco fragilis")
      synonymResponse synonymRecord [] rfl rfl).1 (by decide)).1,
   (first_candidate_status_classification (.str "Abra alba")
      acceptedResponse acceptedRecord [] rfl rfl).2 rfl⟩
